import Mathlib

/-!
Verification of the Qoetipan verse-image editor (React/TypeScript) against its
natural-language specification. The definitions below shallowly embed the data
model and the state-mutating handlers of the current application revision
(src/unnamed/part_000) together with the verse repository client
(src/unnamed/part_001). React state is modelled by an explicit record that is
threaded through the handlers; asynchronous completions (FileReader onload,
fetch resolution, capture/encode resolution) are modelled as separate events
carrying their outcome.
-/

namespace Ayats

/-- Model of the JavaScript builtin String.prototype.trim, used by savePreset:
whitespace is stripped from both ends of the string. -/
def jsTrim (s : String) : String :=
  (((s.data.dropWhile Char.isWhitespace).reverse.dropWhile Char.isWhitespace).reverse).asString

/-- Base-10 digit list of a natural number, least significant digit first,
computed with an explicit fuel argument so that the kernel can evaluate it. -/
def decDigitsFuel : Nat → Nat → List Nat
  | 0, _ => []
  | _+1, 0 => []
  | fuel+1, n+1 => ((n+1) % 10) :: decDigitsFuel fuel ((n+1) / 10)

/-- Base-10 digit list of `n`, least significant first; `n` itself is always
enough fuel. -/
def decDigits (n : Nat) : List Nat := decDigitsFuel n n

/-- Value of a least-significant-first digit list, inverse of `decDigits`. -/
def digitsVal : List Nat → Nat
  | [] => 0
  | d :: t => d + 10 * digitsVal t

/-- Model of the JavaScript builtin Number.prototype.toString applied to the
integer Date.now() value: the decimal representation, built from the base-10
digits (most significant first). -/
def natToDecimal (n : Nat) : String :=
  if n = 0 then "0"
  else (((decDigits n).reverse).map Nat.digitChar).asString

/-- Identifier generation of savePreset, src/unnamed/part_000 line 154:
Date.now().toString(), with the clock reading passed in as `now`. -/
def genId (now : Nat) : String := natToDecimal now

/-- Verse record, src/types.ts lines 9 to 14. -/
structure Verse where
  nomorAyat : Nat
  teksArab : String
  teksLatin : String
  teksIndonesia : String
deriving DecidableEq

/-- EditorSettings record: the fields of src/types.ts lines 16 to 36 extended
with the fields the current revision adds and initialises in its default
settings object (src/unnamed/part_000 lines 37 to 60): backgroundImage,
showTranslation, showOverlay, overlayColor, overlayOpacity. The TypeScript
string-literal unions for alignment and vertical position are kept as strings;
fractional line heights are rationals. -/
structure EditorSettings where
  arabicFont : String
  arabicSize : Nat
  arabicColor : String
  arabicLineHeight : ℚ
  arabicAlign : String
  indoFont : String
  indoSize : Nat
  indoColor : String
  indoLineHeight : ℚ
  indoAlign : String
  backgroundColor : String
  backgroundImage : Option String
  isTransparent : Bool
  showSurahInfo : Bool
  showDivider : Bool
  showTranslation : Bool
  verticalPosition : String
  contentGap : Nat
  horizontalPadding : Nat
  showOverlay : Bool
  overlayColor : String
  overlayOpacity : Nat
deriving DecidableEq

/-- Default settings object, src/unnamed/part_000 lines 37 to 60. The default
fonts are ARABIC_FONTS[0].family and INDO_FONTS[0].family from src/types.ts
(the \x27 escapes stand for the single quotes inside the CSS family names). -/
def defaultSettings : EditorSettings where
  arabicFont := "\x27Amiri\x27, serif"
  arabicSize := 42
  arabicColor := "#1a1a1a"
  arabicLineHeight := 1.8
  arabicAlign := "center"
  indoFont := "\x27Inter\x27, sans-serif"
  indoSize := 18
  indoColor := "#374151"
  indoLineHeight := 1.5
  indoAlign := "center"
  backgroundColor := "#ffffff"
  backgroundImage := none
  isTransparent := false
  showSurahInfo := true
  showDivider := true
  showTranslation := true
  verticalPosition := "center"
  contentGap := 40
  horizontalPadding := 40
  showOverlay := true
  overlayColor := "#000000"
  overlayOpacity := 40

/-- SavedPreset record, src/types.ts lines 38 to 42. -/
structure SavedPreset where
  id : String
  name : String
  settings : EditorSettings
deriving DecidableEq

/-- Application state, src/unnamed/part_000 lines 11 to 64, restricted to the
fields the claims concern. `storedPresets` is the deserialized content of the
qr_presets localStorage key (JSON.stringify of the preset list is modelled by
the list value itself). `captures` counts started capture calls (toPng) and
`downloads` counts performed download triggers (link.click), so that the export
claims can observe them. -/
structure AppState where
  settings : EditorSettings
  presets : List SavedPreset
  presetName : String
  storedPresets : List SavedPreset
  verseData : Option Verse
  loading : Bool
  exporting : Bool
  captures : Nat
  downloads : Nat
deriving DecidableEq

/-- Fresh-session initial state: the useState initialisers of
src/unnamed/part_000 lines 11 to 64 when localStorage holds no saved data. -/
def initialState : AppState where
  settings := defaultSettings
  presets := []
  presetName := ""
  storedPresets := []
  verseData := none
  loading := false
  exporting := false
  captures := 0
  downloads := 0

/-- Completion of handleImageUpload, src/unnamed/part_000 lines 117 to 126:
the FileReader onload callback replaces the settings with a copy carrying the
uploaded data URI and isTransparent forced to false. -/
def handleImageUpload (dataUri : String) (s : AppState) : AppState :=
  { s with settings :=
      { s.settings with backgroundImage := some dataUri, isTransparent := false } }

/-- Transparent-background checkbox, src/unnamed/part_000 line 435:
setSettings with isTransparent replaced; no other field is touched. -/
def setIsTransparent (b : Bool) (s : AppState) : AppState :=
  { s with settings := { s.settings with isTransparent := b } }

/-- Canvas color picker, src/unnamed/part_000 line 439. -/
def setBackgroundColor (c : String) (s : AppState) : AppState :=
  { s with settings := { s.settings with backgroundColor := c } }

/-- Arabic color edit site, src/unnamed/part_000 line 359: setSettings with a
fresh record produced by spreading the live settings and overriding one field. -/
def editArabicColor (c : String) (s : AppState) : AppState :=
  { s with settings := { s.settings with arabicColor := c } }

/-- savePreset, src/unnamed/part_000 lines 152 to 159. Returns unchanged state
when the trimmed name is empty; otherwise appends a preset whose id is the
decimal clock reading, whose name is the raw (untrimmed) presetName, and whose
settings are a copy of the live settings, then writes the new list through to
storage and clears the name field. -/
def savePreset (now : Nat) (s : AppState) : AppState :=
  if jsTrim s.presetName = "" then s
  else
    let newPreset : SavedPreset :=
      { id := genId now, name := s.presetName, settings := s.settings }
    let updated := s.presets ++ [newPreset]
    { s with presets := updated, storedPresets := updated, presetName := "" }

/-- loadPreset, src/unnamed/part_000 line 161: setSettings(preset.settings). -/
def loadPreset (p : SavedPreset) (s : AppState) : AppState :=
  { s with settings := p.settings }

/-- deletePreset, src/unnamed/part_000 lines 162 to 166: keeps exactly the
presets whose id differs from the argument and re-persists the list. -/
def deletePreset (id : String) (s : AppState) : AppState :=
  let updated := s.presets.filter (fun p => p.id != id)
  { s with presets := updated, storedPresets := updated }

/-- Completion of loadVerse, src/unnamed/part_000 lines 95 to 102: the awaited
fetchVerse result is applied only when present (if (data) setVerseData(data)),
then loading is cleared. An absent result leaves verseData untouched. -/
def loadVerseComplete (result : Option Verse) (s : AppState) : AppState :=
  { s with
    verseData := match result with
      | some v => some v
      | none => s.verseData
    loading := false }

/-- Body of handleExport up to its first suspension, src/unnamed/part_000
lines 128 to 150: returns unchanged when no canvas node is mounted, otherwise
sets the exporting flag and starts one capture (the toPng call). -/
def handleExport (canvasMounted : Bool) (s : AppState) : AppState :=
  if !canvasMounted then s
  else { s with exporting := true, captures := s.captures + 1 }

/-- Click on the export button, src/unnamed/part_000 line 467: the button
carries disabled={exporting}, so a click while an export is in flight fires no
handler; otherwise handleExport runs. -/
def clickExportPng (canvasMounted : Bool) (s : AppState) : AppState :=
  if s.exporting then s else handleExport canvasMounted s

/-- Resolution of the capture promise inside handleExport: on success the
download link is clicked exactly once; on failure (catch) no download happens;
either way the finally block clears the exporting flag. -/
def exportComplete (success : Bool) (s : AppState) : AppState :=
  { s with
    exporting := false
    downloads := if success then s.downloads + 1 else s.downloads }

/-- Background portion of the rendered composition, src/unnamed/part_000 lines
477 to 479: the backdrop div paints the checkerboard pattern exactly when
isTransparent; the canvas div gets the solid backgroundColor unless
isTransparent (then transparent); the photo layer div is rendered exactly when
settings.backgroundImage is set, with no condition on isTransparent. -/
structure BackgroundLayers where
  checkerboard : Bool
  canvasColor : Option String
  photoLayer : Option String
deriving DecidableEq

/-- Evaluation of the three background-layer conditions of src/unnamed/part_000
lines 477 to 479 on a settings record. -/
def renderBackground (st : EditorSettings) : BackgroundLayers where
  checkerboard := st.isTransparent
  canvasColor := if st.isTransparent then none else some st.backgroundColor
  photoLayer := st.backgroundImage

/-- Content of the preview pane, src/unnamed/part_000 lines 481 to 490:
spinner while loading, else the verse when one is held, else the empty-state
placeholder. -/
inductive Preview where
  | spinner
  | verse (v : Verse)
  | placeholder
deriving DecidableEq

/-- Branch structure of the preview, src/unnamed/part_000 line 481. -/
def renderPreview (loading : Bool) (verseData : Option Verse) : Preview :=
  if loading then .spinner
  else match verseData with
    | some v => .verse v
    | none => .placeholder

/-- Outcome of the network and parse steps inside fetchVerse,
src/unnamed/part_001 lines 16 to 26: `thrown` covers a rejected fetch, a
failing response.json(), and a shape error while reading data.data.ayat, all of
which land in the catch block; `ok` carries the decoded verse list. -/
inductive FetchVerseOutcome where
  | thrown
  | ok (ayat : List Verse)
deriving DecidableEq

/-- fetchVerse, src/unnamed/part_001 lines 16 to 26: on any thrown error the
catch block returns null; otherwise a linear find over the chapter verse list
by nomorAyat, with undefined coerced to null. The function is total: no error
escapes to the caller. -/
def fetchVerse (outcome : FetchVerseOutcome) (verseNumber : Nat) : Option Verse :=
  match outcome with
  | .thrown => none
  | .ok ayat => ayat.find? (fun a => a.nomorAyat == verseNumber)

/-- Outcome of the JSON.parse platform builtin applied to the stored qr_presets
string: either a decoded preset list or a thrown SyntaxError (corrupt JSON). -/
inductive PresetsParse where
  | ok (ps : List SavedPreset)
  | thrown
deriving DecidableEq

/-- Result of running the presets part of the startup effect: either the preset
list the state receives, or an uncaught exception aborting the effect. -/
inductive StartupPresets where
  | ok (ps : List SavedPreset)
  | crashed
deriving DecidableEq

/-- Presets branch of the startup effect, src/unnamed/part_000 lines 80 to 89:
when the qr_presets key is missing the presets state keeps its initial empty
value; when a string is stored it is passed to JSON.parse with no try/catch, so
a thrown SyntaxError propagates out of the effect (unlike the settings
initialiser at lines 32 to 36, which guards its parse). `parse` gives the
JSON.parse outcome for the stored string. -/
def startupLoadPresets (stored : Option String) (parse : String → PresetsParse) :
    StartupPresets :=
  match stored with
  | none => .ok []
  | some s =>
    match parse s with
    | .ok ps => .ok ps
    | .thrown => .crashed

/-- Demo verse used to instantiate witnesses. -/
def vDemo : Verse where
  nomorAyat := 1
  teksArab := "demo-arab"
  teksLatin := "demo-latin"
  teksIndonesia := "demo-indonesia"

/-- Demo presets used to instantiate witnesses. -/
def pA : SavedPreset where
  id := "1"
  name := "a"
  settings := defaultSettings

/-- Second demo preset with a distinct identifier. -/
def pB : SavedPreset where
  id := "2"
  name := "b"
  settings := defaultSettings

/-! Helper lemmas about the decimal-string model of Date.now().toString(). -/

lemma digitsVal_decDigitsFuel :
    ∀ (fuel n : Nat), n ≤ fuel → digitsVal (decDigitsFuel fuel n) = n := by
  intro fuel
  induction fuel with
  | zero => intro n h; interval_cases n; rfl
  | succ f ih =>
    intro n h
    cases n with
    | zero => rfl
    | succ m =>
      have hdiv : (m + 1) / 10 ≤ f := by
        have h1 : (m + 1) / 10 < m + 1 := Nat.div_lt_self (Nat.succ_pos m) (by norm_num)
        omega
      simp only [decDigitsFuel, digitsVal, ih _ hdiv]
      omega

lemma digitsVal_decDigits (n : Nat) : digitsVal (decDigits n) = n :=
  digitsVal_decDigitsFuel n n (Nat.le_refl n)

lemma decDigits_inj (m n : Nat) (h : decDigits m = decDigits n) : m = n := by
  have hv := digitsVal_decDigits m
  rw [h, digitsVal_decDigits] at hv
  exact hv.symm

lemma decDigitsFuel_lt_ten : ∀ (fuel n : Nat), ∀ d ∈ decDigitsFuel fuel n, d < 10 := by
  intro fuel
  induction fuel with
  | zero => intro n d hd; simp [decDigitsFuel] at hd
  | succ f ih =>
    intro n d hd
    cases n with
    | zero => simp [decDigitsFuel] at hd
    | succ m =>
      simp only [decDigitsFuel, List.mem_cons] at hd
      rcases hd with h | h
      · subst h; exact Nat.mod_lt _ (by norm_num)
      · exact ih _ d h

lemma digitChar_inj : ∀ d₁ < 10, ∀ d₂ < 10, Nat.digitChar d₁ = Nat.digitChar d₂ → d₁ = d₂ := by
  decide

lemma map_digitChar_inj : ∀ (l₁ l₂ : List Nat), (∀ d ∈ l₁, d < 10) → (∀ d ∈ l₂, d < 10) →
    l₁.map Nat.digitChar = l₂.map Nat.digitChar → l₁ = l₂ := by
  intro l₁
  induction l₁ with
  | nil => intro l₂ _ _ h; cases l₂ <;> simp_all
  | cons a t ih =>
    intro l₂ h₁ h₂ h
    cases l₂ with
    | nil => simp at h
    | cons b t₂ =>
      simp only [List.map_cons, List.cons.injEq] at h
      have ha : a < 10 := h₁ a (by simp)
      have hb : b < 10 := h₂ b (by simp)
      have hab : a = b := digitChar_inj a ha b hb h.1
      subst hab
      have ht := ih t₂ (fun d hd => h₁ d (by simp [hd])) (fun d hd => h₂ d (by simp [hd])) h.2
      simp [ht]

lemma natToDecimal_ne_zero_str (n : Nat) (hn : n ≠ 0) : natToDecimal n ≠ "0" := by
  intro h
  unfold natToDecimal at h
  rw [if_neg hn] at h
  have hd : ((decDigits n).reverse.map Nat.digitChar) = ['0'] := congrArg String.data h
  have hrevd : (decDigits n).reverse = [0] := by
    refine map_digitChar_inj _ [0] ?_ ?_ ?_
    · intro d hmem
      exact decDigitsFuel_lt_ten n n d (List.mem_reverse.mp hmem)
    · intro d hmem; simp at hmem; omega
    · simpa using hd
  have hdig : decDigits n = [0] := by
    have h2 := congrArg List.reverse hrevd
    simpa using h2
  have hv := digitsVal_decDigits n
  rw [hdig] at hv
  simp [digitsVal] at hv
  exact hn hv.symm

lemma natToDecimal_inj (m n : Nat) (h : natToDecimal m = natToDecimal n) : m = n := by
  by_cases hm : m = 0 <;> by_cases hn : n = 0
  · exact hm.trans hn.symm
  · exfalso
    apply natToDecimal_ne_zero_str n hn
    rw [← h, hm]
    rfl
  · exfalso
    apply natToDecimal_ne_zero_str m hm
    rw [h, hn]
    rfl
  · unfold natToDecimal at h
    rw [if_neg hm, if_neg hn] at h
    have hmap : (decDigits m).reverse.map Nat.digitChar
        = (decDigits n).reverse.map Nat.digitChar := congrArg String.data h
    have hrev := map_digitChar_inj _ _
      (fun d hd => decDigitsFuel_lt_ten m m d (List.mem_reverse.mp hd))
      (fun d hd => decDigitsFuel_lt_ten n n d (List.mem_reverse.mp hd))
      hmap
    have hdig : decDigits m = decDigits n := by
      have h2 := congrArg List.reverse hrev
      simpa using h2
    exact decDigits_inj m n hdig

/-! Claim theorems. -/

/-- C1, counterexample: the claim that no reachable state renders a photo layer
while the transparent flag is set is false. Starting from the fresh session,
completing a background-photo upload and then ticking the transparent checkbox
reaches a state whose transparent flag is set, whose rendered composition still
contains the photo layer, and whose checkerboard backdrop is active as well, so
two background modes are visually active at once. -/
theorem C1_counterexample :
    (setIsTransparent true (handleImageUpload "data:image/png;base64,AAAA" initialState)).settings.isTransparent
        = true ∧
    (renderBackground (setIsTransparent true
        (handleImageUpload "data:image/png;base64,AAAA" initialState)).settings).photoLayer
        = some "data:image/png;base64,AAAA" ∧
    (renderBackground (setIsTransparent true
        (handleImageUpload "data:image/png;base64,AAAA" initialState)).settings).checkerboard
        = true :=
  ⟨rfl, rfl, rfl⟩

/-- C1, amended: the solid canvas color and the transparent checkerboard are
mutually exclusive in every settings state, and completing a photo upload
always forces the transparent flag off; but the photo layer is rendered exactly
when a photo payload is set, independently of the transparent flag, so the
transparent toggle can leave a photo layer active together with the
checkerboard. -/
theorem C1_background_modes_amended (st : EditorSettings) (uri : String) (s : AppState) :
    ((renderBackground st).canvasColor.isSome ↔ (renderBackground st).checkerboard = false) ∧
    (renderBackground st).photoLayer = st.backgroundImage ∧
    (handleImageUpload uri s).settings.isTransparent = false ∧
    (handleImageUpload uri s).settings.backgroundImage = some uri := by
  refine ⟨?_, rfl, rfl, rfl⟩
  unfold renderBackground
  cases st.isTransparent <;> simp

/-- C2, counterexample: the claim that a failed verse fetch leaves the
empty-state placeholder on display is false. In a state already holding a
fetched verse, completing a failed load keeps the old verse on display instead
of the placeholder. -/
theorem C2_counterexample :
    renderPreview
        (loadVerseComplete none { initialState with verseData := some vDemo, loading := true }).loading
        (loadVerseComplete none { initialState with verseData := some vDemo, loading := true }).verseData
      = Preview.verse vDemo ∧
    renderPreview
        (loadVerseComplete none { initialState with verseData := some vDemo, loading := true }).loading
        (loadVerseComplete none { initialState with verseData := some vDemo, loading := true }).verseData
      ≠ Preview.placeholder := by
  exact ⟨rfl, by decide⟩

/-- C2, amended: completing a failed verse load clears the loading flag and
leaves the previously fetched verse state untouched, so the preview shows the
empty-state placeholder after a failed load exactly when no verse had been
loaded before; otherwise the stale previous verse remains on display. -/
theorem C2_stale_verse_amended (s : AppState) :
    (loadVerseComplete none s).verseData = s.verseData ∧
    (loadVerseComplete none s).loading = false ∧
    (renderPreview (loadVerseComplete none s).loading (loadVerseComplete none s).verseData
        = Preview.placeholder ↔ s.verseData = none) := by
  refine ⟨rfl, rfl, ?_⟩
  unfold loadVerseComplete renderPreview
  cases s.verseData <;> simp

/-- C3: evaluation of the startup presets load. A missing qr_presets key yields
the empty preset list as the claim states; but a stored string on which
JSON.parse throws (corrupt, non-JSON data) makes the unguarded parse abort the
startup effect instead of yielding an empty list, contradicting the claim and
the documented intent. -/
theorem C3_startup_presets_code_bug :
    (∀ parse : String → PresetsParse, startupLoadPresets none parse = .ok []) ∧
    startupLoadPresets (some "not-json") (fun _ => .thrown) = .crashed :=
  ⟨fun _ => rfl, rfl⟩

/-- C4: round-trip fidelity. Applying a preset and then saving under any name
that is non-empty after trimming appends a preset whose stored settings
snapshot is exactly the settings record of the original preset, field for
field. -/
theorem C4_preset_roundtrip (s : AppState) (p : SavedPreset) (name : String) (now : Nat)
    (h : jsTrim name ≠ "") :
    (savePreset now { loadPreset p s with presetName := name }).presets
      = s.presets ++ [{ id := genId now, name := name, settings := p.settings }] := by
  unfold savePreset loadPreset
  simp only []
  rw [if_neg h]

/-- C4, witness at a concrete preset, name and clock value. -/
theorem C4_preset_roundtrip_witness :
    (savePreset 3 { loadPreset pA initialState with presetName := "x" }).presets
      = initialState.presets ++ [{ id := genId 3, name := "x", settings := pA.settings }] :=
  C4_preset_roundtrip initialState pA "x" 3 (by decide)

/-- C5: no observable aliasing. After applying a preset, a single-field edit of
the live settings (the arabic color edit site) leaves the preset collection and
its persisted copy unchanged, and produces a live settings record that differs
from the preset snapshot only in the edited field. -/
theorem C5_no_aliasing (s : AppState) (p : SavedPreset) (c : String) :
    (editArabicColor c (loadPreset p s)).presets = s.presets ∧
    (editArabicColor c (loadPreset p s)).storedPresets = s.storedPresets ∧
    (editArabicColor c (loadPreset p s)).settings = { p.settings with arabicColor := c } :=
  ⟨rfl, rfl, rfl⟩

/-- C6: at most one export is in flight. A click on the export trigger while an
export is pending is a no-op (the button is disabled, so no state change, no
new capture, no download); a click in the idle state with the canvas mounted
starts exactly one capture and produces no download yet; and resolution of the
capture yields exactly one download on success and none on failure, releasing
the in-flight flag. -/
theorem C6_export_serialized (s : AppState) (m : Bool) :
    (s.exporting = true → clickExportPng m s = s) ∧
    (s.exporting = false → m = true →
      (clickExportPng m s).captures = s.captures + 1 ∧
      (clickExportPng m s).exporting = true ∧
      (clickExportPng m s).downloads = s.downloads) ∧
    (exportComplete true s).downloads = s.downloads + 1 ∧
    (exportComplete false s).downloads = s.downloads ∧
    (exportComplete true s).exporting = false ∧
    (exportComplete false s).exporting = false := by
  refine ⟨?_, ?_, rfl, rfl, rfl, rfl⟩
  · intro h
    simp [clickExportPng, h]
  · intro h hm
    subst hm
    simp [clickExportPng, handleExport, h]

/-- C6, witness: a second trigger while an export is in flight leaves the state
unchanged. -/
theorem C6_export_serialized_witness :
    clickExportPng true { initialState with exporting := true }
      = { initialState with exporting := true } :=
  (C6_export_serialized { initialState with exporting := true } true).1 rfl

/-- C7, counterexample: the claim that the identifier generated at save time is
unique within the collection for the session is false. Two saves performed at
the same clock millisecond (Date.now() = 7 twice) store two presets carrying
the same identifier. -/
theorem C7_counterexample :
    ((savePreset 7 { savePreset 7 { initialState with presetName := "a" }
          with presetName := "b" }).presets.map SavedPreset.id) = ["7", "7"] ∧
    ¬ ((savePreset 7 { savePreset 7 { initialState with presetName := "a" }
          with presetName := "b" }).presets.map SavedPreset.id).Nodup := by
  exact ⟨by decide, by decide⟩

/-- C7, amended: when identifiers are pairwise distinct and the identifier is
present, delete removes exactly that entry and keeps every other entry, in its
original relative order, in both the live list and the persisted copy; and the
identifiers generated at save time are unique provided no two saves observe the
same clock millisecond. -/
theorem C7_delete_and_ids_amended (s : AppState) (l₁ l₂ : List SavedPreset) (p : SavedPreset)
    (hsplit : s.presets = l₁ ++ p :: l₂)
    (hothers : ∀ q ∈ l₁ ++ l₂, q.id ≠ p.id) :
    (deletePreset p.id s).presets = l₁ ++ l₂ ∧
    (deletePreset p.id s).storedPresets = l₁ ++ l₂ ∧
    (∀ t₁ t₂ : Nat, t₁ ≠ t₂ → genId t₁ ≠ genId t₂) := by
  have hfilter : (l₁ ++ p :: l₂).filter (fun q => q.id != p.id) = l₁ ++ l₂ := by
    have h1 : l₁.filter (fun q => q.id != p.id) = l₁ := by
      rw [List.filter_eq_self]
      intro q hq
      simpa using hothers q (List.mem_append_left _ hq)
    have h2 : l₂.filter (fun q => q.id != p.id) = l₂ := by
      rw [List.filter_eq_self]
      intro q hq
      simpa using hothers q (List.mem_append_right _ hq)
    rw [List.filter_append, List.filter_cons]
    simp [h1, h2]
  refine ⟨?_, ?_, fun t₁ t₂ hne he => hne (natToDecimal_inj t₁ t₂ he)⟩
  · unfold deletePreset
    simp only [hsplit, hfilter]
  · unfold deletePreset
    simp only [hsplit, hfilter]

/-- C7, witness: deleting the first of two presets with distinct identifiers
keeps exactly the other one. -/
theorem C7_delete_and_ids_amended_witness :
    (deletePreset pA.id { initialState with presets := [pA, pB] }).presets = [] ++ [pB] ∧
    (deletePreset pA.id { initialState with presets := [pA, pB] }).storedPresets = [] ++ [pB] ∧
    (∀ t₁ t₂ : Nat, t₁ ≠ t₂ → genId t₁ ≠ genId t₂) :=
  C7_delete_and_ids_amended { initialState with presets := [pA, pB] } [] [pB] pA rfl
    (by decide)

/-- C8: getVerse semantics. The client is a total function (the try/catch means
no error ever escapes to the caller): any thrown network, parse, or shape error
yields absent; on a decoded chapter it is sound (a returned verse is in the
chapter list and carries the requested ordinal), complete (whenever some verse
of the chapter carries the requested ordinal, a verse with that ordinal is
returned), and returns absent when no verse of the chapter carries the
requested ordinal. -/
theorem C8_fetchVerse_spec (outcome : FetchVerseOutcome) (n : Nat) :
    fetchVerse .thrown n = none ∧
    (∀ ayat, outcome = .ok ayat →
      ((∀ v, fetchVerse outcome n = some v → v ∈ ayat ∧ v.nomorAyat = n) ∧
       ((∃ v ∈ ayat, v.nomorAyat = n) →
         ∃ w, fetchVerse outcome n = some w ∧ w ∈ ayat ∧ w.nomorAyat = n) ∧
       ((∀ v ∈ ayat, v.nomorAyat ≠ n) → fetchVerse outcome n = none))) := by
  refine ⟨rfl, ?_⟩
  intro ayat h
  subst h
  refine ⟨?_, ?_, ?_⟩
  · intro v hv
    unfold fetchVerse at hv
    refine ⟨List.mem_of_find?_eq_some hv, ?_⟩
    have hp := List.find?_some hv
    simpa using hp
  · rintro ⟨v, hmem, hord⟩
    cases hfind : ayat.find? (fun a => a.nomorAyat == n) with
    | none =>
      exfalso
      have hall := List.find?_eq_none.mp hfind v hmem
      simp [hord] at hall
    | some w =>
      refine ⟨w, ?_, List.mem_of_find?_eq_some hfind, ?_⟩
      · simpa [fetchVerse] using hfind
      · have hp := List.find?_some hfind
        simpa using hp
  · intro hnone
    unfold fetchVerse
    rw [List.find?_eq_none]
    intro v hv
    simp [hnone v hv]

/-- C8, witness: on the demo chapter list, which contains a verse of ordinal 1,
the client returns a verse of ordinal 1 from that list. -/
theorem C8_fetchVerse_spec_witness :
    ∃ w, fetchVerse (.ok [vDemo]) 1 = some w ∧ w ∈ [vDemo] ∧ w.nomorAyat = 1 :=
  ((C8_fetchVerse_spec (.ok [vDemo]) 1).2 [vDemo] rfl).2.1 ⟨vDemo, by decide, rfl⟩

/-- C9, counterexample: the claim that the stored display name is the trimmed
name is false. Saving under the name " a " (with surrounding spaces) stores the
raw name " a ", which differs from its trim "a". -/
theorem C9_counterexample :
    ((savePreset 5 { initialState with presetName := " a " }).presets.map SavedPreset.name)
      = [" a "] ∧
    jsTrim " a " = "a" ∧
    (" a " : String) ≠ "a" := by
  exact ⟨by decide, by decide, by decide⟩

/-- C9, amended: save is a silent no-op (list, persisted copy and whole state
unchanged) when the candidate name is empty after trimming; otherwise it
appends, and writes through to storage, a preset whose stored display name is
the raw candidate name exactly as entered, not its trimmed form. -/
theorem C9_save_name_amended (s : AppState) (now : Nat) :
    (jsTrim s.presetName = "" → savePreset now s = s) ∧
    (jsTrim s.presetName ≠ "" →
      (savePreset now s).presets
        = s.presets ++ [{ id := genId now, name := s.presetName, settings := s.settings }] ∧
      (savePreset now s).storedPresets
        = s.presets ++ [{ id := genId now, name := s.presetName, settings := s.settings }]) := by
  constructor
  · intro h
    unfold savePreset
    rw [if_pos h]
  · intro h
    unfold savePreset
    rw [if_neg h]
    exact ⟨rfl, rfl⟩

/-- C9, witness: saving under a whitespace-only name changes nothing. -/
theorem C9_save_name_amended_witness :
    savePreset 5 { initialState with presetName := "   " }
      = { initialState with presetName := "   " } :=
  (C9_save_name_amended { initialState with presetName := "   " } 5).1 (by decide)

/-- C10: completing a background-photo upload replaces the photo payload with
the uploaded data URI, forces the transparent flag off, and leaves every other
field of the Settings Model unchanged. -/
theorem C10_upload_forces_opaque (s : AppState) (uri : String) :
    (handleImageUpload uri s).settings.backgroundImage = some uri ∧
    (handleImageUpload uri s).settings.isTransparent = false ∧
    (handleImageUpload uri s).settings.arabicFont = s.settings.arabicFont ∧
    (handleImageUpload uri s).settings.arabicSize = s.settings.arabicSize ∧
    (handleImageUpload uri s).settings.arabicColor = s.settings.arabicColor ∧
    (handleImageUpload uri s).settings.arabicLineHeight = s.settings.arabicLineHeight ∧
    (handleImageUpload uri s).settings.arabicAlign = s.settings.arabicAlign ∧
    (handleImageUpload uri s).settings.indoFont = s.settings.indoFont ∧
    (handleImageUpload uri s).settings.indoSize = s.settings.indoSize ∧
    (handleImageUpload uri s).settings.indoColor = s.settings.indoColor ∧
    (handleImageUpload uri s).settings.indoLineHeight = s.settings.indoLineHeight ∧
    (handleImageUpload uri s).settings.indoAlign = s.settings.indoAlign ∧
    (handleImageUpload uri s).settings.backgroundColor = s.settings.backgroundColor ∧
    (handleImageUpload uri s).settings.showSurahInfo = s.settings.showSurahInfo ∧
    (handleImageUpload uri s).settings.showDivider = s.settings.showDivider ∧
    (handleImageUpload uri s).settings.showTranslation = s.settings.showTranslation ∧
    (handleImageUpload uri s).settings.verticalPosition = s.settings.verticalPosition ∧
    (handleImageUpload uri s).settings.contentGap = s.settings.contentGap ∧
    (handleImageUpload uri s).settings.horizontalPadding = s.settings.horizontalPadding ∧
    (handleImageUpload uri s).settings.showOverlay = s.settings.showOverlay ∧
    (handleImageUpload uri s).settings.overlayColor = s.settings.overlayColor ∧
    (handleImageUpload uri s).settings.overlayOpacity = s.settings.overlayOpacity :=
  ⟨rfl, rfl, rfl, rfl, rfl, rfl, rfl, rfl, rfl, rfl, rfl,
   rfl, rfl, rfl, rfl, rfl, rfl, rfl, rfl, rfl, rfl, rfl⟩

end Ayats
